import Mathlib

/-!
Shallow embedding of the attendance-backend service (`models.py`, `main.py`).

Conventions of the embedding:
* A naive local timestamp (Python `datetime` with `tzinfo=None`) is modelled
  as whole seconds since 1970-01-01 00:00:00 local time (`DateTime := Nat`).
  The service only ever captures `datetime.now(...)` values, subtracts two of
  them (whole-second difference) and formats the calendar date, so this
  representation is faithful for every operation the code performs.
* The SQLAlchemy table is modelled as a `List AttendanceRecord` in the
  store's natural return order; `query(...).filter(id == rid).first()` is
  `List.find?`, and the in-place mutation of the found row followed by
  `commit()` is `updateFirst` (replace the first row with that id).
* Request bodies are loosely-shaped dicts; an absent key is `Option.none`
  and `data.get(k, d)` is `Option.getD`.  Python's `f"..{x}.."` rendering of
  `None` as the literal text `None` is `pyStr`.
* `HTTPException` aborts the request before `db.commit()`, so an error
  branch returns the store unchanged together with `Except.error code`.
* Python `divmod` is floor division, i.e. `Int.fdiv` / `Int.fmod`.
-/

/-- Naive local timestamp: whole seconds since the epoch (zone stripped). -/
abbrev DateTime := Nat

/-- Model of `models.AttendanceRecord` — the sole entity (table `attendance`).
`sign_in` is an optional column in the schema, though every creation path of
the service sets it. -/
structure AttendanceRecord where
  id : Nat
  student_name : String
  sign_in : Option DateTime
  sign_out : Option DateTime
  total_hours : Option String
  status : String
  notes : Option String
  is_regularized : Bool
deriving Repr, DecidableEq

/-- Python `str(x)` for an optional string value: `None` renders as the
literal text `"None"` inside an f-string. -/
def pyStr : Option String → String
  | none => "None"
  | some s => s

/-- Autoincrement primary key: the store assigns a fresh id on insert. -/
def nextId (db : List AttendanceRecord) : Nat :=
  db.foldl (fun a r => max a r.id) 0 + 1

/-- Lookup `db.query(AttendanceRecord).filter(AttendanceRecord.id == rid).first()`. -/
def findRecord (db : List AttendanceRecord) (rid : Nat) : Option AttendanceRecord :=
  db.find? (fun r => r.id == rid)

/-- SQLAlchemy mutates the single object returned by `.first()`; on commit the
first row with the given id is replaced. -/
def updateFirst (db : List AttendanceRecord) (rid : Nat) (r' : AttendanceRecord) :
    List AttendanceRecord :=
  match db with
  | [] => []
  | r :: rest => if r.id == rid then r' :: rest else r :: updateFirst rest rid r'

/-- Source line `hours, remainder = divmod(seconds, 3600)` — the hours part. -/
def durHours (seconds : Int) : Int := Int.fdiv seconds 3600

/-- Source line `minutes, _ = divmod(remainder, 60)` — the minutes part. -/
def durMinutes (seconds : Int) : Int := Int.fdiv (Int.fmod seconds 3600) 60

/-- Source line `record.total_hours` is the f-string of hours and minutes. -/
def totalHoursString (seconds : Int) : String :=
  let h := durHours seconds
  let m := durMinutes seconds
  s!"{h}h {m}m"

/-- Source line: status is "Present" if `hours > 0 or minutes >= 45` else "Shortage"
(the comment in the source reads: mark Present if at least 45 minutes worked). -/
def signOutStatus (seconds : Int) : String :=
  if 0 < durHours seconds ∨ 45 ≤ durMinutes seconds then "Present" else "Shortage"

/-- Response body of `POST /attendance/signout/{record_id}`. -/
structure SignOutResponse where
  status : String
  duration : String
deriving Repr, DecidableEq

/-- Body of `POST /attendance/signin`: `{name}` with the field optional. -/
structure SignInBody where
  name : Option String
deriving Repr, DecidableEq

/-- Endpoint `sign_in`: creates a record with the current Toronto time,
status `In-Progress`, returns the new record's id. -/
def sign_in (db : List AttendanceRecord) (data : SignInBody) (now : DateTime) :
    List AttendanceRecord × Nat :=
  let new_record : AttendanceRecord :=
    { id := nextId db
      student_name := data.name.getD "Unknown Student"
      sign_in := some now
      sign_out := none
      total_hours := none
      status := "In-Progress"
      notes := none
      is_regularized := false }
  (db ++ [new_record], new_record.id)

/-- Endpoint `sign_out`: 404 when the id is unknown; otherwise sets
`sign_out := now`, computes the duration from the original `sign_in`, stores
`total_hours` and the derived status, and returns them.  A row with a NULL
`sign_in` would make the Python subtraction raise (an unhandled 500); no
creation path of the service produces such a row. -/
def sign_out (db : List AttendanceRecord) (record_id : Nat) (now : DateTime) :
    List AttendanceRecord × Except Nat SignOutResponse :=
  match findRecord db record_id with
  | none => (db, Except.error 404)
  | some record =>
    match record.sign_in with
    | none => (db, Except.error 500)
    | some tin =>
      let seconds : Int := (now : Int) - (tin : Int)
      let record' : AttendanceRecord :=
        { record with
            sign_out := some now
            total_hours := some (totalHoursString seconds)
            status := signOutStatus seconds }
      (updateFirst db record_id record',
       Except.ok { status := signOutStatus seconds, duration := totalHoursString seconds })

/-- Body of `POST /attendance/regularize`: `{name, date, reason}`, all optional. -/
structure RegularizeBody where
  name : Option String
  date : Option String
  reason : Option String
deriving Repr, DecidableEq

/-- Endpoint `request_regularization`: creates a `Pending Approval` record
with `notes = f"Date: {date} | Reason: {reason}"` and `is_regularized=True`. -/
def request_regularization (db : List AttendanceRecord) (data : RegularizeBody)
    (now : DateTime) : List AttendanceRecord :=
  let d := pyStr data.date
  let r := pyStr data.reason
  let new_reg : AttendanceRecord :=
    { id := nextId db
      student_name := data.name.getD "Unknown Student"
      sign_in := some now
      sign_out := none
      total_hours := none
      status := "Pending Approval"
      notes := some s!"Date: {d} | Reason: {r}"
      is_regularized := true }
  db ++ [new_reg]

/-- Python dict assignment `summary[date_key] = r.status`: replace in place
when the key exists, append at the end otherwise (insertion order kept). -/
def dictInsert (d : List (String × String)) (k v : String) : List (String × String) :=
  if d.any (fun p => p.1 == k) then
    d.map (fun p => if p.1 == k then (k, v) else p)
  else d ++ [(k, v)]

/-- Python dict lookup. -/
def dictGet (d : List (String × String)) (k : String) : Option String :=
  (d.find? (fun p => p.1 == k)).map Prod.snd

/-- Leap-year rule of the Gregorian calendar (`strftime` semantics). -/
def isLeap (y : Nat) : Bool := (y % 4 == 0 && y % 100 != 0) || y % 400 == 0

def daysInYear (y : Nat) : Nat := if isLeap y then 366 else 365

def monthLengths (y : Nat) : List Nat :=
  [31, if isLeap y then 29 else 28, 31, 30, 31, 30, 31, 31, 30, 31, 30, 31]

/-- Walk forward from 1970 consuming whole years; the fuel bounds the number
of steps (each step consumes at least 365 days, so `d + 1` steps suffice). -/
def yearFromDays : Nat → Nat → Nat → Nat × Nat
  | 0, y, d => (y, d)
  | fuel + 1, y, d =>
    if d < daysInYear y then (y, d) else yearFromDays fuel (y + 1) (d - daysInYear y)

/-- Walk through the months of a year consuming the day-of-year. -/
def monthFromDoy : List Nat → Nat → Nat → Nat × Nat
  | [], m, d => (m, d)
  | len :: rest, m, d =>
    if d < len then (m, d) else monthFromDoy rest (m + 1) (d - len)

/-- Civil date (year, month, day-of-month) of a day count since 1970-01-01. -/
def civilFromDays (z : Nat) : Nat × Nat × Nat :=
  let yd := yearFromDays (z + 1) 1970 z
  let md := monthFromDoy (monthLengths yd.1) 1 yd.2
  (yd.1, md.1, md.2 + 1)

def pad2 (n : Nat) : String := if n < 10 then "0" ++ toString n else toString n

def pad4 (n : Nat) : String :=
  if n < 10 then "000" ++ toString n
  else if n < 100 then "00" ++ toString n
  else if n < 1000 then "0" ++ toString n
  else toString n

/-- Rendering `t.strftime("%Y-%m-%d")` for a naive timestamp. -/
def strftimeDate (t : DateTime) : String :=
  let c := civilFromDays (t / 86400)
  pad4 c.1 ++ "-" ++ pad2 c.2.1 ++ "-" ++ pad2 c.2.2

/-- One iteration of the `get_month_summary` loop body. -/
def summaryStep (summary : List (String × String)) (r : AttendanceRecord) :
    List (String × String) :=
  match r.sign_in with
  | some t => dictInsert summary (strftimeDate t) r.status
  | none => summary

/-- Endpoint `get_month_summary`: scan all records in the store's return
order; for each record with a `sign_in`, write its status under the
`%Y-%m-%d` key of that timestamp. -/
def get_month_summary (db : List AttendanceRecord) : List (String × String) :=
  db.foldl summaryStep []

/-- Endpoint `get_attendance_count`: counts only rows marked `Present`. -/
def get_attendance_count (db : List AttendanceRecord) : Nat :=
  (db.filter (fun r => r.status == "Present")).length

/-- Body of `PUT /professor/action/{record_id}`: `{status}` optional. -/
structure ActionBody where
  status : Option String
deriving Repr, DecidableEq

/-- Endpoint `update_status` (Resolve): 404 when the id is unknown; when the
decision is `"Approved"` set status `Present` and prefix the notes, otherwise
set status `Rejected` leaving the notes untouched. -/
def update_status (db : List AttendanceRecord) (record_id : Nat) (action : ActionBody) :
    List AttendanceRecord × Except Nat String :=
  match findRecord db record_id with
  | none => (db, Except.error 404)
  | some record =>
    let record' : AttendanceRecord :=
      if action.status == some "Approved" then
        { record with status := "Present", notes := some ("Approved: " ++ pyStr record.notes) }
      else
        { record with status := "Rejected" }
    (updateFirst db record_id record',
     Except.ok ("Request " ++ pyStr action.status))

example : totalHoursString 3723 = "1h 2m" := by rfl

example : signOutStatus 600 = "Shortage" := by rfl

example : signOutStatus 2700 = "Present" := by rfl

example : strftimeDate 0 = "1970-01-01" := by rfl

example : strftimeDate 86400 = "1970-01-02" := by rfl

/-! ### Helper lemmas -/

theorem durHours_eq_ediv (s : Int) : durHours s = s / 3600 :=
  Int.fdiv_eq_ediv s (by decide)

theorem durMinutes_eq_ediv (s : Int) : durMinutes s = s % 3600 / 60 := by
  unfold durMinutes
  rw [Int.fmod_eq_emod _ (by decide), Int.fdiv_eq_ediv _ (by decide)]

theorem durHours_ofNat (d : Nat) : durHours (d : Int) = ((d / 3600 : Nat) : Int) := by
  unfold durHours
  exact (Int.ofNat_fdiv d 3600).symm

theorem durMinutes_ofNat (d : Nat) :
    durMinutes (d : Int) = ((d % 3600 / 60 : Nat) : Int) := by
  rw [durMinutes_eq_ediv]
  omega

theorem toString_intOfNat (n : Nat) : toString ((n : Int)) = toString n := rfl

theorem totalHoursString_ofNat (d : Nat) :
    totalHoursString (d : Int) =
      toString (d / 3600) ++ "h " ++ toString (d % 3600 / 60) ++ "m" := by
  simp only [totalHoursString, durHours_ofNat, durMinutes_ofNat, toString_intOfNat]
  simp [String.empty_append, String.append_assoc]
  rfl

theorem signOutStatus_ofNat (d : Nat) :
    signOutStatus (d : Int) =
      if 0 < d / 3600 ∨ 45 ≤ d % 3600 / 60 then "Present" else "Shortage" := by
  unfold signOutStatus
  rw [durHours_ofNat, durMinutes_ofNat]
  have h1 : (0 : Int) < ((d / 3600 : Nat) : Int) ↔ 0 < d / 3600 := by omega
  have h2 : (45 : Int) ≤ ((d % 3600 / 60 : Nat) : Int) ↔ 45 ≤ d % 3600 / 60 := by omega
  simp only [h1, h2]

theorem findRecord_updateFirst (db : List AttendanceRecord) (rid : Nat)
    (r' : AttendanceRecord) (hid : r'.id = rid) (hf : (findRecord db rid).isSome) :
    findRecord (updateFirst db rid r') rid = some r' := by
  induction db with
  | nil => simp [findRecord] at hf
  | cons a rest ih =>
    by_cases h : a.id = rid
    · simp [updateFirst, findRecord, h, hid]
    · have ha : (a.id == rid) = false := by simp [h]
      have hf' : (findRecord rest rid).isSome := by
        simpa [findRecord, List.find?, ha] using hf
      simpa [updateFirst, findRecord, List.find?, ha] using ih hf'

/-- A freshly signed-in session record (as `sign_in` creates it). -/
def inProgressRecord (rid : Nat) (tin : DateTime) : AttendanceRecord :=
  { id := rid
    student_name := "Alice"
    sign_in := some tin
    sign_out := none
    total_hours := none
    status := "In-Progress"
    notes := none
    is_regularized := false }

/-- C1: counterexample — signing out an existing record exactly 10 minutes
(600 s) after sign-in yields status `"Shortage"`, whereas the claim says an
elapsed time of exactly 10 minutes yields `"Present"` (the code's threshold
is `minutes >= 45`, not `>= 10`). -/
theorem C1_counterexample_ten_minutes :
    (sign_out [inProgressRecord 1 0] 1 600).2 =
      Except.ok { status := "Shortage", duration := "0h 10m" } ∧
    "Shortage" ≠ "Present" :=
  ⟨rfl, by decide⟩

/-- C1 (amended): for every sign-out of an existing record, with
`hours = elapsed // 3600` and `minutes = (elapsed % 3600) // 60`, the status
is `"Present"` if `hours > 0 OR minutes >= 45` and `"Shortage"` otherwise;
exactly 45 minutes yields Present, 44m59s yields Shortage, and one hour
yields Present, while 10 minutes yields Shortage. -/
theorem C1_threshold_is_45 (db : List AttendanceRecord) (rid : Nat)
    (r : AttendanceRecord) (tin now : DateTime)
    (hf : findRecord db rid = some r) (hs : r.sign_in = some tin) (hle : tin ≤ now) :
    (sign_out db rid now).2 =
      Except.ok { status := if 0 < (now - tin) / 3600 ∨ 45 ≤ (now - tin) % 3600 / 60
                            then "Present" else "Shortage"
                  duration := totalHoursString ((now : Int) - (tin : Int)) } ∧
    signOutStatus (2700 : Int) = "Present" ∧
    signOutStatus (2699 : Int) = "Shortage" ∧
    signOutStatus (3600 : Int) = "Present" ∧
    signOutStatus (600 : Int) = "Shortage" := by
  refine ⟨?_, rfl, rfl, rfl, rfl⟩
  have hcast : ((now : Int) - (tin : Int)) = ((now - tin : Nat) : Int) :=
    (Int.ofNat_sub hle).symm
  simp only [sign_out, hf, hs, hcast, signOutStatus_ofNat]

/-- C1 witness: a concrete 45-minute session is marked Present. -/
theorem C1_threshold_is_45_witness :
    (sign_out [inProgressRecord 1 0] 1 2700).2 =
      Except.ok { status := "Present", duration := "0h 45m" } := by
  have h := C1_threshold_is_45 [inProgressRecord 1 0] 1 (inProgressRecord 1 0) 0 2700
    rfl rfl (by decide)
  exact h.1.trans (by rfl)

theorem findRecord_id (db : List AttendanceRecord) (rid : Nat) (r : AttendanceRecord)
    (hf : findRecord db rid = some r) : r.id = rid := by
  have h := List.find?_some hf
  simpa using h

/-- C2: for every sign-out of an existing record, both the response and the
stored record carry `total_hours = "{H}h {M}m"` with `H = seconds / 3600` and
`M = (seconds % 3600) / 60` by integer floor division of the elapsed seconds;
3723 elapsed seconds format as `"1h 2m"`. -/
theorem C2_total_hours_format (db : List AttendanceRecord) (rid : Nat)
    (r : AttendanceRecord) (tin now : DateTime)
    (hf : findRecord db rid = some r) (hs : r.sign_in = some tin) (hle : tin ≤ now) :
    ((sign_out db rid now).2 =
      Except.ok { status := signOutStatus ((now : Int) - (tin : Int))
                  duration := toString ((now - tin) / 3600) ++ "h " ++
                              toString ((now - tin) % 3600 / 60) ++ "m" }) ∧
    (∃ rec, findRecord (sign_out db rid now).1 rid = some rec ∧
        rec.total_hours = some (toString ((now - tin) / 3600) ++ "h " ++
                                toString ((now - tin) % 3600 / 60) ++ "m")) ∧
    totalHoursString (3723 : Int) = "1h 2m" := by
  have hcast : ((now : Int) - (tin : Int)) = ((now - tin : Nat) : Int) :=
    (Int.ofNat_sub hle).symm
  have hfmt : totalHoursString ((now : Int) - (tin : Int)) =
      toString ((now - tin) / 3600) ++ "h " ++ toString ((now - tin) % 3600 / 60) ++ "m" := by
    rw [hcast, totalHoursString_ofNat]
  have hid : r.id = rid := findRecord_id db rid r hf
  refine ⟨?_, ?_, rfl⟩
  · simp only [sign_out, hf, hs, hfmt]
  · have hfind : findRecord (sign_out db rid now).1 rid =
        some { r with
                 sign_out := some now
                 total_hours := some (totalHoursString ((now : Int) - (tin : Int)))
                 status := signOutStatus ((now : Int) - (tin : Int)) } := by
      simp only [sign_out, hf, hs]
      exact findRecord_updateFirst db rid _ hid (by rw [hf]; rfl)
    exact ⟨_, hfind, by rw [hfmt]⟩

/-- C2 witness: a concrete session of 3723 seconds stores and returns "1h 2m". -/
theorem C2_total_hours_format_witness :
    (sign_out [inProgressRecord 1 0] 1 3723).2 =
      Except.ok { status := "Present", duration := "1h 2m" } := by
  have h := C2_total_hours_format [inProgressRecord 1 0] 1 (inProgressRecord 1 0) 0 3723
    rfl rfl (by decide)
  exact h.1.trans (by rfl)

/-- C3: sign-out fails with 404 exactly when no record with the id exists,
and in that case the store is left unchanged. -/
theorem C3_signout_notfound (db : List AttendanceRecord) (rid : Nat) (now : DateTime) :
    ((sign_out db rid now).2 = Except.error 404 ↔ findRecord db rid = none) ∧
    (findRecord db rid = none → (sign_out db rid now).1 = db) := by
  rcases hf : findRecord db rid with _ | r
  · simp [sign_out, hf]
  · rcases hs : r.sign_in with _ | tin
    · simp [sign_out, hf, hs]
    · simp [sign_out, hf, hs]

/-- C3 witness: signing out an id absent from a concrete store returns 404. -/
theorem C3_signout_notfound_witness :
    (sign_out [inProgressRecord 1 0] 7 100).2 = Except.error 404 :=
  ((C3_signout_notfound [inProgressRecord 1 0] 7 100).1).mpr rfl

/-- A regularization request record awaiting professor action. -/
def pendingRecord (rid : Nat) (tin : DateTime) : AttendanceRecord :=
  { id := rid
    student_name := "Bob"
    sign_in := some tin
    sign_out := none
    total_hours := none
    status := "Pending Approval"
    notes := some "Date: 2024-01-01 | Reason: sick"
    is_regularized := true }

/-- C4: Resolve with decision "Approved" sets status Present and replaces the
notes with "Approved: " prepended to the previous notes; any other decision
sets status Rejected and leaves the notes unchanged. -/
theorem C4_resolve_decision (db : List AttendanceRecord) (rid : Nat)
    (r : AttendanceRecord) (action : ActionBody) (hf : findRecord db rid = some r) :
    (action.status = some "Approved" →
       (findRecord (update_status db rid action).1 rid =
          some { r with status := "Present", notes := some ("Approved: " ++ pyStr r.notes) }) ∧
       ∀ s, r.notes = some s →
         findRecord (update_status db rid action).1 rid =
           some { r with status := "Present", notes := some ("Approved: " ++ s) }) ∧
    (action.status ≠ some "Approved" →
       findRecord (update_status db rid action).1 rid =
         some { r with status := "Rejected" }) := by
  have hid : r.id = rid := findRecord_id db rid r hf
  constructor
  · intro ha
    have hb : (action.status == some "Approved") = true := by simp [ha]
    have h1 : findRecord (update_status db rid action).1 rid =
        some { r with status := "Present", notes := some ("Approved: " ++ pyStr r.notes) } := by
      simp only [update_status, hf, hb, if_true]
      exact findRecord_updateFirst db rid _ hid (by rw [hf]; rfl)
    refine ⟨h1, fun s hsn => ?_⟩
    rw [h1, hsn]
    rfl
  · intro ha
    have hb : (action.status == some "Approved") = false := by
      simpa using ha
    simp only [update_status, hf, hb, Bool.false_eq_true, if_false]
    exact findRecord_updateFirst db rid _ hid (by rw [hf]; rfl)

/-- C4 witness: approving a concrete pending request yields a Present record
with the approval marker prepended to its notes. -/
theorem C4_resolve_decision_witness :
    findRecord (update_status [pendingRecord 1 0] 1 ⟨some "Approved"⟩).1 1 =
      some { pendingRecord 1 0 with
               status := "Present"
               notes := some "Approved: Date: 2024-01-01 | Reason: sick" } := by
  have h := (C4_resolve_decision [pendingRecord 1 0] 1 (pendingRecord 1 0)
    ⟨some "Approved"⟩ rfl).1 rfl
  exact (h.2 "Date: 2024-01-01 | Reason: sick" rfl).trans (by rfl)

/-- C6: the attendance count is exactly the number of records whose current
status equals "Present"; a record with any other status (Shortage, Rejected,
Pending Approval, In-Progress, ...) contributes nothing to it. -/
theorem C6_attendance_count (db : List AttendanceRecord) (r : AttendanceRecord) :
    get_attendance_count db = (db.map (fun rec => rec.status)).count "Present" ∧
    (r.status = "Present" →
       get_attendance_count (db ++ [r]) = get_attendance_count db + 1) ∧
    (r.status ≠ "Present" →
       get_attendance_count (db ++ [r]) = get_attendance_count db) := by
  have key : ∀ l : List AttendanceRecord,
      get_attendance_count l = (l.map (fun rec => rec.status)).count "Present" := by
    intro l
    induction l with
    | nil => rfl
    | cons a t ih =>
      by_cases ha : a.status = "Present" <;>
        simp [get_attendance_count, List.count_cons, List.filter_cons, ha] at * <;>
        omega
  refine ⟨key db, ?_, ?_⟩
  · intro ha
    simp [get_attendance_count, List.filter_append, ha]
  · intro ha
    simp [get_attendance_count, List.filter_append, ha]

/-- C6 witness: a non-Present record does not change the count. -/
theorem C6_attendance_count_witness :
    get_attendance_count [inProgressRecord 1 0, inProgressRecord 2 0] =
      get_attendance_count [inProgressRecord 1 0] := by
  have h := (C6_attendance_count [inProgressRecord 1 0] (inProgressRecord 2 0)).2.2
    (by decide)
  simpa using h

theorem regNotesString (d r : String) :
    (s!"Date: {d} | Reason: {r}") = "Date: " ++ d ++ " | Reason: " ++ r := by
  show "Date: " ++ d ++ " | Reason: " ++ r ++ "" = "Date: " ++ d ++ " | Reason: " ++ r
  rw [String.append_empty]

/-- C7: every regularization request creates a record with status
"Pending Approval", `is_regularized = true`, `sign_in = now`, and notes
"Date: {date} | Reason: {reason}"; an absent date or reason renders as the
literal text "None". -/
theorem C7_request_regularization (db : List AttendanceRecord)
    (data : RegularizeBody) (now : DateTime) :
    ∃ rec : AttendanceRecord,
      request_regularization db data now = db ++ [rec] ∧
      rec.status = "Pending Approval" ∧
      rec.is_regularized = true ∧
      rec.sign_in = some now ∧
      rec.notes = some ("Date: " ++ pyStr data.date ++ " | Reason: " ++ pyStr data.reason) ∧
      (data.date = none →
        rec.notes = some ("Date: None | Reason: " ++ pyStr data.reason)) ∧
      (data.reason = none →
        rec.notes = some ("Date: " ++ pyStr data.date ++ " | Reason: None")) := by
  refine ⟨_, rfl, rfl, rfl, rfl, ?_, ?_, ?_⟩
  · exact congrArg some (regNotesString (pyStr data.date) (pyStr data.reason))
  · intro h
    rw [h]
    exact congrArg some (regNotesString (pyStr none) (pyStr data.reason))
  · intro h
    rw [h]
    have e := congrArg some (regNotesString (pyStr data.date) (pyStr none))
    refine e.trans (congrArg some ?_)
    rw [String.append_assoc]
    rfl

/-- C7 witness: a concrete request without a date renders "None" in the notes. -/
theorem C7_request_regularization_witness :
    ∃ rec : AttendanceRecord,
      request_regularization [] ⟨some "Bob", none, some "sick"⟩ 100 = [] ++ [rec] ∧
      rec.notes = some "Date: None | Reason: sick" := by
  obtain ⟨rec, h1, _, _, _, _, h6, _⟩ :=
    C7_request_regularization [] ⟨some "Bob", none, some "sick"⟩ 100
  exact ⟨rec, h1, (h6 rfl).trans (by rfl)⟩

/-- C10: a sign-in or regularization request without a "name" field creates a
record named exactly "Unknown Student"; the endpoints always set the name
explicitly (to `name` or "Unknown Student"), so the column default
"Guest Student" is never produced through them. -/
theorem C10_default_student_name (db : List AttendanceRecord) (now : DateTime)
    (data : SignInBody) (rdata : RegularizeBody) :
    (data.name = none → ∃ rec : AttendanceRecord,
       (sign_in db data now).1 = db ++ [rec] ∧ rec.student_name = "Unknown Student") ∧
    (rdata.name = none → ∃ rec : AttendanceRecord,
       request_regularization db rdata now = db ++ [rec] ∧
       rec.student_name = "Unknown Student") ∧
    (∃ rec : AttendanceRecord, (sign_in db data now).1 = db ++ [rec] ∧
       rec.student_name = data.name.getD "Unknown Student") ∧
    "Unknown Student" ≠ "Guest Student" := by
  refine ⟨?_, ?_, ⟨_, rfl, rfl⟩, by decide⟩
  · intro h
    refine ⟨_, rfl, ?_⟩
    show data.name.getD "Unknown Student" = "Unknown Student"
    rw [h]; rfl
  · intro h
    refine ⟨_, rfl, ?_⟩
    show rdata.name.getD "Unknown Student" = "Unknown Student"
    rw [h]; rfl

/-- C10 witness: a concrete nameless sign-in stores "Unknown Student". -/
theorem C10_default_student_name_witness :
    ∃ rec : AttendanceRecord,
      (sign_in [] ⟨none⟩ 50).1 = [] ++ [rec] ∧ rec.student_name = "Unknown Student" :=
  (C10_default_student_name [] 50 ⟨none⟩ ⟨none, none, none⟩).1 rfl

/-- The record as `sign_out` rewrites it: sign-out time `now`, duration and
status derived from the elapsed seconds `now - tin`. -/
def signedOutRecord (r : AttendanceRecord) (tin now : DateTime) : AttendanceRecord :=
  { r with
      sign_out := some now
      total_hours := some (totalHoursString ((now : Int) - (tin : Int)))
      status := signOutStatus ((now : Int) - (tin : Int)) }

theorem signOut_found (db : List AttendanceRecord) (rid : Nat) (r : AttendanceRecord)
    (tin now : DateTime) (hf : findRecord db rid = some r) (hs : r.sign_in = some tin) :
    sign_out db rid now =
      (updateFirst db rid (signedOutRecord r tin now),
       Except.ok { status := signOutStatus ((now : Int) - (tin : Int))
                   duration := totalHoursString ((now : Int) - (tin : Int)) }) := by
  simp only [sign_out, hf, hs, signedOutRecord]

/-- C8: signing out an already signed-out record succeeds again: the second
call recomputes `total_hours` and the status from the original `sign_in` and
the new sign-out time, overwriting the previously stored terminal values. -/
theorem C8_second_signout_overwrites (db : List AttendanceRecord) (rid : Nat)
    (r : AttendanceRecord) (tin now₁ now₂ : DateTime)
    (hf : findRecord db rid = some r) (hs : r.sign_in = some tin) :
    ((sign_out db rid now₁).2 =
       Except.ok { status := signOutStatus ((now₁ : Int) - (tin : Int))
                   duration := totalHoursString ((now₁ : Int) - (tin : Int)) }) ∧
    findRecord (sign_out db rid now₁).1 rid = some (signedOutRecord r tin now₁) ∧
    ((sign_out (sign_out db rid now₁).1 rid now₂).2 =
       Except.ok { status := signOutStatus ((now₂ : Int) - (tin : Int))
                   duration := totalHoursString ((now₂ : Int) - (tin : Int)) }) ∧
    findRecord (sign_out (sign_out db rid now₁).1 rid now₂).1 rid =
      some (signedOutRecord r tin now₂) := by
  have hid : r.id = rid := findRecord_id db rid r hf
  have e1 := signOut_found db rid r tin now₁ hf hs
  have h1 : findRecord (sign_out db rid now₁).1 rid = some (signedOutRecord r tin now₁) := by
    rw [e1]
    exact findRecord_updateFirst db rid _ hid (by rw [hf]; rfl)
  have hs1 : (signedOutRecord r tin now₁).sign_in = some tin := hs
  have e2 := signOut_found (sign_out db rid now₁).1 rid (signedOutRecord r tin now₁)
    tin now₂ h1 hs1
  refine ⟨by rw [e1], h1, by rw [e2], ?_⟩
  rw [e2]
  have h2 := findRecord_updateFirst (sign_out db rid now₁).1 rid
    (signedOutRecord (signedOutRecord r tin now₁) tin now₂) hid (by rw [h1]; rfl)
  exact h2.trans (by rfl)

/-- C8 witness: a concrete record signed out after 45 minutes and again after
two hours ends up Present with duration "2h 0m" computed from the original
sign-in. -/
theorem C8_second_signout_overwrites_witness :
    (sign_out (sign_out [inProgressRecord 1 0] 1 2700).1 1 7200).2 =
      Except.ok { status := "Present", duration := "2h 0m" } := by
  have h := C8_second_signout_overwrites [inProgressRecord 1 0] 1 (inProgressRecord 1 0)
    0 2700 7200 rfl rfl
  exact h.2.2.1.trans (by rfl)

/-- A record already in the terminal status "Present" (a completed session). -/
def presentRecord (rid : Nat) : AttendanceRecord :=
  { id := rid
    student_name := "Carol"
    sign_in := some 0
    sign_out := some 2700
    total_hours := some "0h 45m"
    status := "Present"
    notes := none
    is_regularized := false }

/-- C9: counterexample — Resolve with a non-"Approved" decision transitions a
record whose status is the terminal "Present" to "Rejected", so an operation
of the service does move a Present record to another state. -/
theorem C9_counterexample_present_to_rejected :
    (update_status [presentRecord 1] 1 ⟨some "Denied"⟩).1 =
      [{ presentRecord 1 with status := "Rejected" }] ∧
    "Rejected" ≠ "Present" :=
  ⟨rfl, by decide⟩

/-- C9 (amended): In-Progress and Pending Approval are the only non-terminal
states of the intended state machine, but the code does not enforce
terminality: Resolve transitions any existing record, whatever its current
status — in particular a record in the terminal status Present or Shortage is
moved to "Rejected" by any non-"Approved" decision (and repeated sign-out
likewise rewrites terminal records, see C8). -/
theorem C9_terminal_states_not_enforced (db : List AttendanceRecord) (rid : Nat)
    (r : AttendanceRecord) (action : ActionBody) (hf : findRecord db rid = some r)
    (hterm : r.status = "Present" ∨ r.status = "Shortage")
    (hna : action.status ≠ some "Approved") :
    ∃ rec, findRecord (update_status db rid action).1 rid = some rec ∧
      rec.status = "Rejected" ∧ rec.status ≠ r.status := by
  have hid : r.id = rid := findRecord_id db rid r hf
  have hb : (action.status == some "Approved") = false := by simpa using hna
  refine ⟨{ r with status := "Rejected" }, ?_, rfl, ?_⟩
  · simp only [update_status, hf, hb, Bool.false_eq_true, if_false]
    exact findRecord_updateFirst db rid _ hid (by rw [hf]; rfl)
  · rcases hterm with h | h <;> simp [h]

/-- C9 witness: the concrete Present record is moved to Rejected. -/
theorem C9_terminal_states_not_enforced_witness :
    ∃ rec, findRecord (update_status [presentRecord 1] 1 ⟨some "Denied"⟩).1 1 = some rec ∧
      rec.status = "Rejected" ∧ rec.status ≠ (presentRecord 1).status :=
  C9_terminal_states_not_enforced [presentRecord 1] 1 (presentRecord 1) ⟨some "Denied"⟩
    rfl (Or.inl rfl) (by decide)

theorem dictInsert_pos {d : List (String × String)} {k : String} (v : String)
    (h : d.any (fun p => p.1 == k) = true) :
    dictInsert d k v = d.map (fun p => if p.1 == k then (k, v) else p) := by
  unfold dictInsert
  rw [if_pos h]

theorem dictInsert_neg {d : List (String × String)} {k : String} (v : String)
    (h : d.any (fun p => p.1 == k) = false) :
    dictInsert d k v = d ++ [(k, v)] := by
  unfold dictInsert
  rw [if_neg (by simp [h])]

theorem replaceKeys_map_fst (d : List (String × String)) (k v : String) :
    (d.map (fun p => if p.1 == k then (k, v) else p)).map Prod.fst = d.map Prod.fst := by
  induction d with
  | nil => rfl
  | cons a t ih =>
    have hfst : (if a.1 == k then (k, v) else a).1 = a.1 := by
      by_cases h : a.1 = k
      · simp [h]
      · simp [h]
    simp only [List.map_cons, hfst, ih]

theorem any_key_of_mem {d : List (String × String)} {k : String}
    (h : k ∈ d.map Prod.fst) : d.any (fun p => p.1 == k) = true := by
  obtain ⟨p, hp, hpk⟩ := List.mem_map.mp h
  exact List.any_eq_true.mpr ⟨p, hp, by simp [hpk]⟩

theorem mem_key_of_any {d : List (String × String)} {k : String}
    (h : d.any (fun p => p.1 == k) = true) : k ∈ d.map Prod.fst := by
  obtain ⟨p, hp, hpk⟩ := List.any_eq_true.mp h
  exact List.mem_map.mpr ⟨p, hp, by simpa using hpk⟩

theorem dictInsert_mem_keys (d : List (String × String)) (k v k' : String) :
    k' ∈ (dictInsert d k v).map Prod.fst ↔ k' ∈ d.map Prod.fst ∨ k' = k := by
  cases han : d.any (fun p => p.1 == k)
  · rw [dictInsert_neg v han, List.map_append, List.mem_append]
    simp
  · rw [dictInsert_pos v han, replaceKeys_map_fst]
    have hk := mem_key_of_any han
    exact ⟨fun h => Or.inl h, fun h => h.elim id (fun e => e ▸ hk)⟩

theorem dictInsert_nodup_keys (d : List (String × String)) (k v : String)
    (h : (d.map Prod.fst).Nodup) : ((dictInsert d k v).map Prod.fst).Nodup := by
  cases han : d.any (fun p => p.1 == k)
  · rw [dictInsert_neg v han, List.map_append]
    have hk : k ∉ d.map Prod.fst := fun hmem => by simp [any_key_of_mem hmem] at han
    exact h.append (List.nodup_singleton k)
      (by intro a ha hb; simp only [List.map_cons, List.map_nil, List.mem_singleton] at hb; subst hb; exact hk ha)
  · rw [dictInsert_pos v han, replaceKeys_map_fst]
    exact h

theorem find?_replace_self (d : List (String × String)) (k v : String) :
    d.any (fun p => p.1 == k) = true →
    (d.map (fun p => if p.1 == k then (k, v) else p)).find? (fun p => p.1 == k) =
      some (k, v) := by
  induction d with
  | nil => intro h; simp at h
  | cons a t ih =>
    intro h
    rw [List.map_cons]
    by_cases ha : a.1 = k
    · have hfa : (if a.1 == k then (k, v) else a) = (k, v) := by simp [ha]
      rw [hfa]
      exact List.find?_cons_of_pos _ (by simp)
    · have hfa : (if a.1 == k then (k, v) else a) = a := by simp [ha]
      have h' : t.any (fun p => p.1 == k) = true := by
        rcases List.any_eq_true.mp h with ⟨p, hp, hpk⟩
        rcases List.mem_cons.mp hp with rfl | hpt
        · exact absurd (by simpa using hpk) ha
        · exact List.any_eq_true.mpr ⟨p, hpt, hpk⟩
      rw [hfa, List.find?_cons_of_neg _ (by simp [ha])]
      exact ih h'

theorem find?_replace_other (d : List (String × String)) (k v k' : String)
    (hne : k' ≠ k) :
    (d.map (fun p => if p.1 == k then (k, v) else p)).find? (fun p => p.1 == k') =
      d.find? (fun p => p.1 == k') := by
  induction d with
  | nil => rfl
  | cons a t ih =>
    rw [List.map_cons]
    by_cases ha : a.1 = k
    · have hfa : (if a.1 == k then (k, v) else a) = (k, v) := by simp [ha]
      rw [hfa, List.find?_cons_of_neg _ (by simp [Ne.symm hne]),
          List.find?_cons_of_neg _ (by simp [ha]; exact Ne.symm hne), ih]
    · have hfa : (if a.1 == k then (k, v) else a) = a := by simp [ha]
      by_cases ha' : a.1 = k'
      · rw [hfa, List.find?_cons_of_pos _ (by simp [ha']),
            List.find?_cons_of_pos _ (by simp [ha'])]
      · rw [hfa, List.find?_cons_of_neg _ (by simp [ha']),
            List.find?_cons_of_neg _ (by simp [ha']), ih]

theorem dictGet_insert_self (d : List (String × String)) (k v : String) :
    dictGet (dictInsert d k v) k = some v := by
  cases han : d.any (fun p => p.1 == k)
  · have hnone : d.find? (fun p => p.1 == k) = none := by
      rw [List.find?_eq_none]
      intro p hp hpk
      have hany : d.any (fun p => p.1 == k) = true := List.any_eq_true.mpr ⟨p, hp, hpk⟩
      simp [hany] at han
    unfold dictGet
    rw [dictInsert_neg v han, List.find?_append, hnone,
        List.find?_cons_of_pos _ (by simp)]
    rfl
  · unfold dictGet
    rw [dictInsert_pos v han, find?_replace_self d k v han]
    rfl

theorem dictGet_insert_other (d : List (String × String)) (k v k' : String)
    (hne : k' ≠ k) : dictGet (dictInsert d k v) k' = dictGet d k' := by
  cases han : d.any (fun p => p.1 == k)
  · have h2 : List.find? (fun p => p.1 == k') [(k, v)] = none := by
      rw [List.find?_eq_none]
      intro p hp
      rw [List.mem_singleton] at hp
      subst hp
      simp [Ne.symm hne]
    unfold dictGet
    rw [dictInsert_neg v han, List.find?_append, h2]
    cases d.find? (fun p => p.1 == k') <;> rfl
  · unfold dictGet
    rw [dictInsert_pos v han, find?_replace_other d k v k' hne]

theorem monthSummary_keys_nodup_aux (db : List AttendanceRecord) :
    ∀ acc : List (String × String), (acc.map Prod.fst).Nodup →
      ((List.foldl summaryStep acc db).map Prod.fst).Nodup := by
  induction db with
  | nil => intro acc h; simpa using h
  | cons r t ih =>
    intro acc h
    rw [List.foldl_cons]
    apply ih
    cases hs : r.sign_in with
    | none => simpa [summaryStep, hs] using h
    | some tt =>
      simp only [summaryStep, hs]
      exact dictInsert_nodup_keys _ _ _ h

theorem monthSummary_mem_keys_aux (db : List AttendanceRecord) :
    ∀ (acc : List (String × String)) (k : String),
      k ∈ (List.foldl summaryStep acc db).map Prod.fst ↔
        k ∈ acc.map Prod.fst ∨ ∃ r ∈ db, ∃ t, r.sign_in = some t ∧ strftimeDate t = k := by
  induction db with
  | nil => intro acc k; simp
  | cons r t ih =>
    intro acc k
    rw [List.foldl_cons, ih]
    cases hs : r.sign_in with
    | none =>
      simp only [summaryStep, hs]
      constructor
      · rintro (h | h)
        · exact Or.inl h
        · rcases h with ⟨r', hr', t', h1, h2⟩
          exact Or.inr ⟨r', List.mem_cons_of_mem _ hr', t', h1, h2⟩
      · rintro (h | ⟨r', hr', t', h1, h2⟩)
        · exact Or.inl h
        · rcases List.mem_cons.mp hr' with rfl | hmem
          · rw [hs] at h1; cases h1
          · exact Or.inr ⟨r', hmem, t', h1, h2⟩
    | some tt =>
      simp only [summaryStep, hs, dictInsert_mem_keys]
      constructor
      · rintro ((h | h) | h)
        · exact Or.inl h
        · exact Or.inr ⟨r, List.mem_cons_self r t, tt, hs, h.symm⟩
        · rcases h with ⟨r', hr', t', h1, h2⟩
          exact Or.inr ⟨r', List.mem_cons_of_mem _ hr', t', h1, h2⟩
      · rintro (h | ⟨r', hr', t', h1, h2⟩)
        · exact Or.inl (Or.inl h)
        · rcases List.mem_cons.mp hr' with rfl | hmem
          · rw [hs] at h1
            injection h1 with e
            subst e
            exact Or.inl (Or.inr h2.symm)
          · exact Or.inr ⟨r', hmem, t', h1, h2⟩

theorem monthSummary_lww_aux (db₂ : List AttendanceRecord) :
    ∀ (acc : List (String × String)) (key : String),
      (∀ r' ∈ db₂, ∀ t', r'.sign_in = some t' → strftimeDate t' ≠ key) →
      dictGet (List.foldl summaryStep acc db₂) key = dictGet acc key := by
  induction db₂ with
  | nil => intro acc key _; rfl
  | cons r t ih =>
    intro acc key h
    rw [List.foldl_cons]
    have hrest : ∀ r' ∈ t, ∀ t', r'.sign_in = some t' → strftimeDate t' ≠ key :=
      fun r' hr' => h r' (List.mem_cons_of_mem _ hr')
    rw [ih _ key hrest]
    cases hs : r.sign_in with
    | none => simp [summaryStep, hs]
    | some tt =>
      simp only [summaryStep, hs]
      exact dictGet_insert_other acc (strftimeDate tt) r.status key
        (fun e => h r (List.mem_cons_self r t) tt hs e.symm)

/-- C5: the month summary's keys are exactly the distinct `%Y-%m-%d` dates of
the records' sign-in timestamps (each date occurs once), and when several
records share a date the stored value is the status of the last such record
in the store's return order (last-write-wins). -/
theorem C5_month_summary (db : List AttendanceRecord) :
    ((get_month_summary db).map Prod.fst).Nodup ∧
    (∀ k, k ∈ (get_month_summary db).map Prod.fst ↔
       ∃ r ∈ db, ∃ t, r.sign_in = some t ∧ strftimeDate t = k) ∧
    (∀ (db₂ : List AttendanceRecord) (r : AttendanceRecord) (t : DateTime),
       r.sign_in = some t →
       (∀ r' ∈ db₂, ∀ t', r'.sign_in = some t' → strftimeDate t' ≠ strftimeDate t) →
       dictGet (get_month_summary (db ++ r :: db₂)) (strftimeDate t) = some r.status) := by
  refine ⟨?_, ?_, ?_⟩
  · exact monthSummary_keys_nodup_aux db [] (by simp)
  · intro k
    have h := monthSummary_mem_keys_aux db [] k
    simpa using h
  · intro db₂ r t hs havoid
    unfold get_month_summary
    rw [List.foldl_append, List.foldl_cons, monthSummary_lww_aux db₂ _ _ havoid]
    simp only [summaryStep, hs]
    exact dictGet_insert_self _ _ _

/-- C5 witness: two records on the same calendar day — the summary holds one
key for that day, carrying the status of the later record in scan order. -/
theorem C5_month_summary_witness :
    dictGet (get_month_summary ([inProgressRecord 1 0] ++ pendingRecord 2 30 :: []))
      (strftimeDate 30) = some (pendingRecord 2 30).status :=
  (C5_month_summary [inProgressRecord 1 0]).2.2 [] (pendingRecord 2 30) 30 rfl
    (fun r' hr' => absurd hr' (List.not_mem_nil r'))
